import Mathlib

/-!
Verification development for the Redis idempotency persistence layer
(`aws_lambda_powertools/utilities/idempotency/persistence/redis.py`).

The layer is embedded shallowly:

* time is a single integer `now` in unix seconds (the code reads the wall
  clock through `datetime.datetime.now()`; millisecond comparisons use
  `now * 1000`);
* the Redis store is an association list from key to a value together with
  its absolute expiry instant (`SET ... EX ttl` at time `now` makes the key
  live while `now' < now + ttl`), following the backend wire contract of the
  design document (GET / SET EX NX / DEL);
* stored texts are represented by `RValue`: a serialized JSON mapping, a
  parseable-but-not-a-mapping text, or a raw non-JSON text;
* Python exceptions become the `PyExc` error type of `Except` results.

Operations of `RedisCachePersistenceLayer` are translated one to one:
`_get_record`, `_item_to_data_record`, `_put_in_progress_record`,
`_acquire_lock` (plus the body of its `with` block, `recover_orphanM`),
`_put_record`, `_update_record`, `_delete_record`, `_get_expiry_second`.
Each is written against an abstract client (`RedisClientM`), mirroring
`self.client`, whose operations may fail with a backend-specific
`RedisError`; `idealClient` instantiates it with the non-failing store
semantics, giving the plain `Store`-level functions used by most theorems.
-/

/-- A JSON scalar value as produced and consumed by `json.dumps` and
`json.loads` for the fields this layer stores (strings, integers, null). -/
inductive JsonVal where
  | jnull
  | jint (i : Int)
  | jstr (s : String)
deriving DecidableEq, Repr

/-- A serialized JSON object: association list of field name and value,
in insertion order, as Python dicts keep it. -/
abbrev RecordMap := List (String × JsonVal)

/-- Lookup of a field in a mapping (Python `item.get(k)` / `item[k]`). -/
def mget (m : RecordMap) (k : String) : Option JsonVal :=
  m.lookup k

/-- Python dict assignment `m[k] = v`: overwrite in place if the key is
present, else append (insertion order is preserved). -/
def dinsert (m : RecordMap) (k : String) (v : JsonVal) : RecordMap :=
  if m.any (fun p => p.1 == k) then
    m.map (fun p => if p.1 == k then (k, v) else p)
  else m ++ [(k, v)]

/-- The text stored under a Redis key, classified by how `json.loads`
treats it: a JSON object, some other valid JSON document, or a text that
is not JSON at all (this includes the empty string and the lock marker
text `True`). -/
inductive RValue where
  | vjson (m : RecordMap)
  | vjsonNonMap
  | vraw (s : String)
deriving DecidableEq, Repr

/-- Python falsiness of the raw GET response (`if not response`): only the
empty string among live values. -/
def pyFalsyR : RValue → Bool
  | .vraw "" => true
  | _ => false

/-- Backend-specific exception family (`redis.exceptions`). -/
inductive RedisError where
  | redisError
  | redisClusterException
deriving DecidableEq, Repr

/-- Python exceptions observable from the layer. The first five are the
taxonomy kinds of the design document; `keyError`, `valueError`,
`attributeError`, `typeError` are plain Python errors; `redisExc` wraps a
backend-specific exception. -/
inductive PyExc where
  | itemAlreadyExists
  | itemNotFound
  | orphanRecord
  | validationError
  | transportError
  | notImplementedError
  | keyError
  | valueError
  | attributeError
  | typeError
  | redisExc (e : RedisError)
deriving DecidableEq, Repr

/-- Whether an exception is one of the five taxonomy kinds of the design
document (ItemAlreadyExists, ItemNotFound, OrphanRecord, ValidationError,
TransportError). -/
def PyExc.isTaxonomyKind : PyExc → Bool
  | .itemAlreadyExists => true
  | .itemNotFound => true
  | .orphanRecord => true
  | .validationError => true
  | .transportError => true
  | _ => false

/-- Modelled from the spec: the `STATUS_CONSTANTS` table of the base
persistence module (not part of the Redis adapter source file) maps each
status name of the lifecycle enum to the stored status string of the same
spelling. -/
def STATUS_CONSTANTS (k : String) : String := k

/-- The `DataRecord` of the base persistence module, restricted to the
fields the Redis layer reads and writes. `status` and `expiry_timestamp`
keep their dynamic (JSON) type because `_item_to_data_record` stores into
them whatever the mapping holds. -/
structure DataRecord where
  idempotency_key : String
  status : JsonVal
  in_progress_expiry_timestamp : Option Int
  response_data : String
  payload_hash : String
  expiry_timestamp : Option JsonVal
deriving DecidableEq, Repr

/-- Modelled from the spec: `DataRecord.is_expired` of the base persistence
module (not in the adapter source). Per the data-model section,
`expiry_timestamp` is an integer unix-seconds instant and the record is
expired once that time has passed; a record without an integer expiry is
not expired. -/
def DataRecord.is_expired (r : DataRecord) (now : Int) : Bool :=
  match r.expiry_timestamp with
  | some (.jint e) => decide (e < now)
  | _ => false

/-- Configuration of `RedisCachePersistenceLayer`: the attribute-name
surface of `__init__` with its default values, plus the two pieces of
`BasePersistenceLayer` state the methods read. Modelled from the spec: the
base layer supplies the configured expiry window `expires_after_seconds`
and the `payload_validation_enabled` flag. -/
structure LayerCfg where
  in_progress_expiry_attr : String := "in_progress_expiration"
  expiry_attr : String := "expiration"
  status_attr : String := "status"
  data_attr : String := "data"
  validation_key_attr : String := "validation"
  expires_after_seconds : Int := 3600
  payload_validation_enabled : Bool := false
deriving DecidableEq, Repr

/-- The layer with every configuration knob left at its default. -/
def defaultCfg : LayerCfg := {}

/-- `self._orphan_lock_timeout = min(10, self.expires_after_seconds)`. -/
def LayerCfg.orphan_lock_timeout (c : LayerCfg) : Int :=
  min 10 c.expires_after_seconds

/-- Python truthiness of a JSON scalar (`if expiry_timestamp:`). -/
def pyTruthy : JsonVal → Bool
  | .jnull => false
  | .jint i => decide (i ≠ 0)
  | .jstr s => decide (s ≠ "")

/-- `_get_expiry_second`: seconds from `now` to the given unix timestamp,
or the configured window when the argument is falsy. Subtracting from a
truthy non-integer raises `TypeError` as in Python. -/
def get_expiry_second (c : LayerCfg) (expiry : JsonVal) (now : Int) :
    Except PyExc Int :=
  if pyTruthy expiry then
    match expiry with
    | .jint e => .ok (e - now)
    | _ => .error .typeError
  else .ok c.expires_after_seconds

/-- Python `str(x)` applied to the result of `item.get(k)` (absent keys
give the value `None`, whose `str` is the literal text `None`). -/
def pyStr : Option JsonVal → String
  | none => "None"
  | some .jnull => "None"
  | some (.jint i) => toString i
  | some (.jstr s) => s

/-- `item.get(k, None)` viewed as an optional value: an explicit JSON null
collapses to the same `None` as an absent key. -/
def jOptOfVal : Option JsonVal → Option JsonVal
  | none => none
  | some .jnull => none
  | some v => some v

/-- A Python `None`-or-value field serialized into a mapping slot. -/
def jvOfOpt : Option JsonVal → JsonVal
  | none => .jnull
  | some v => v

/-- Lines 301-303 of the source: read the in-progress expiry attribute;
a string value goes through `int(...)`, which raises `ValueError` on a
non-numeric text. -/
def parse_ipet : Option JsonVal → Except PyExc (Option Int)
  | none => .ok none
  | some .jnull => .ok none
  | some (.jint i) => .ok (some i)
  | some (.jstr s) =>
    match s.toInt? with
    | some i => .ok (some i)
    | none => .error .valueError

/-- `_item_to_data_record`: build a `DataRecord` from a stored mapping.
`item[self.status_attr]` raises `KeyError` when absent; note the source
reads the expiry through the hard-coded field name `expiration` (line 310),
not through `self.expiry_attr`. -/
def item_to_data_record (c : LayerCfg) (key : String) (m : RecordMap) :
    Except PyExc DataRecord :=
  match parse_ipet (mget m c.in_progress_expiry_attr) with
  | .error e => .error e
  | .ok ipet =>
    match mget m c.status_attr with
    | none => .error .keyError
    | some st =>
      .ok { idempotency_key := key
            status := st
            in_progress_expiry_timestamp := ipet
            response_data := pyStr (mget m c.data_attr)
            payload_hash := pyStr (mget m c.validation_key_attr)
            expiry_timestamp := jOptOfVal (mget m "expiration") }

/-- An entry of the backing store: the stored text and the absolute
instant at which its TTL elapses. -/
structure Entry where
  val : RValue
  expireAt : Int
deriving DecidableEq, Repr

/-- The backing store: association list from key to entry. Modelled from
the spec: the external cache server itself is out of scope of the
repository; this is the backend wire contract (GET / SET EX NX / DEL) of
the design document. -/
abbrev Store := List (String × Entry)

/-- `GET key`: the stored text, while its TTL has not elapsed. -/
def storeGet (s : Store) (k : String) (now : Int) : Option RValue :=
  match s.lookup k with
  | some e => if now < e.expireAt then some e.val else none
  | none => none

/-- `DEL key`. -/
def storeDel (s : Store) (k : String) : Store :=
  s.filter (fun p => !(p.1 == k))

/-- `SET key value EX ttl`: unconditional write with a fresh TTL. -/
def storeSet (s : Store) (k : String) (v : RValue) (ttl now : Int) : Store :=
  (k, ⟨v, now + ttl⟩) :: storeDel s k

/-- `SET key value EX ttl NX`: succeeds (returning `True`) only when the
key holds no live value; otherwise returns `None` and leaves the store
unchanged. -/
def storeSetNX (s : Store) (k : String) (v : RValue) (ttl now : Int) :
    Option Bool × Store :=
  match storeGet s k now with
  | some _ => (none, s)
  | none => (some true, storeSet s k v ttl now)

/-- The client interface the layer calls (`RedisClientProtocol`): GET, SET
(with `ex` and `nx`) and DELETE over an abstract client state `σ`, each of
which may fail with a backend-specific exception. -/
structure RedisClientM (σ : Type) where
  get : String → Int → σ → Except RedisError (Option RValue × σ)
  set : String → RValue → Int → Bool → Int → σ → Except RedisError (Option Bool × σ)
  del : String → σ → Except RedisError σ

/-- The non-failing client over the ideal store semantics. -/
def idealClient : RedisClientM Store where
  get := fun k now s => .ok (storeGet s k now, s)
  set := fun k v ttl nx now s =>
    if nx then .ok (storeSetNX s k v ttl now)
    else .ok (some true, storeSet s k v ttl now)
  del := fun k s => .ok (storeDel s k)

/-- `_get_record` against an abstract client: GET, falsiness check
(`ItemNotFound`), `json.loads` (`OrphanRecord` on a non-JSON text), then
`_item_to_data_record`. Errors carry the client state at the raise
point. -/
def get_recordM {σ : Type} (c : LayerCfg) (C : RedisClientM σ) (key : String)
    (now : Int) (s : σ) : Except (PyExc × σ) (DataRecord × σ) :=
  match C.get key now s with
  | .error re => .error (.redisExc re, s)
  | .ok (response, s1) =>
    match response with
    | none => .error (.itemNotFound, s1)
    | some v =>
      if pyFalsyR v then .error (.itemNotFound, s1)
      else
        match v with
        | .vraw _ => .error (.orphanRecord, s1)
        | .vjsonNonMap => .error (.attributeError, s1)
        | .vjson m =>
          match item_to_data_record c key m with
          | .ok r => .ok (r, s1)
          | .error e => .error (e, s1)

/-- Lines 326-339 of the source: the mapping written for an in-progress
record — status and expiry always, the in-progress deadline when present,
the payload hash when validation is enabled. -/
def in_progress_mapping (c : LayerCfg) (rec : DataRecord) : RecordMap :=
  let m0 := dinsert (dinsert [] c.status_attr rec.status) c.expiry_attr
    (jvOfOpt rec.expiry_timestamp)
  let m1 :=
    match rec.in_progress_expiry_timestamp with
    | some t => dinsert m0 c.in_progress_expiry_attr (.jint t)
    | none => m0
  if c.payload_validation_enabled then
    dinsert m1 c.validation_key_attr (.jstr rec.payload_hash)
  else m1

/-- `_acquire_lock` up to its `yield`: conditional create of the key
`<name>:lock` with TTL `_orphan_lock_timeout`; a failed create raises
`ItemAlreadyExists`. -/
def acquire_lockM {σ : Type} (c : LayerCfg) (C : RedisClientM σ)
    (name : String) (now : Int) (s : σ) : Except (PyExc × σ) σ :=
  match C.set (name ++ ":lock") (.vraw "True") c.orphan_lock_timeout true now s with
  | .error re => .error (.redisExc re, s)
  | .ok (some _, s1) => .ok s1
  | .ok (none, s1) => .error (.itemAlreadyExists, s1)

/-- The `except IdempotencyOrphanRecordError` handler of
`_put_in_progress_record` (lines 392-398): acquire the lock, then force
the overwrite without the NX condition; the lock is left to expire. -/
def recover_orphanM {σ : Type} (c : LayerCfg) (C : RedisClientM σ)
    (name : String) (encoded : RValue) (ttl now : Int) (s : σ) :
    Except (PyExc × σ) σ :=
  match acquire_lockM c C name now s with
  | .error e => .error e
  | .ok s1 =>
    match C.set name encoded ttl false now s1 with
    | .error re => .error (.redisExc re, s1)
    | .ok (_, s2) => .ok s2

/-- Whether a live in-progress deadline blocks a new caller (line 384-385
of the source): the field is truthy and strictly beyond `now` in
milliseconds. -/
def ipet_live (t : Option Int) (now : Int) : Bool :=
  match t with
  | some t => decide (t ≠ 0 ∧ now * 1000 < t)
  | none => false

/-- The `try`/`except IdempotencyOrphanRecordError` structure of
`_put_in_progress_record`: an `OrphanRecord` raised by the attempt is
handled by the recovery handler; every other outcome passes through. -/
def orphan_catchM {σ : Type} (c : LayerCfg) (C : RedisClientM σ)
    (name : String) (encoded : RValue) (ttl now : Int)
    (att : Except (PyExc × σ) σ) : Except (PyExc × σ) σ :=
  match att with
  | .error (.orphanRecord, s1) => recover_orphanM c C name encoded ttl now s1
  | r => r

/-- Lines 375-390 of the source: classification of an existing record. A
completed record that is not expired, or an in-progress record whose
deadline is truthy and still in the future (milliseconds), raises
`ItemAlreadyExists`; reaching past both checks means an orphan record. -/
def classify_existing (r : DataRecord) (now : Int) : PyExc :=
  if r.status = .jstr (STATUS_CONSTANTS "COMPLETED") ∧
      r.is_expired now = false then
    .itemAlreadyExists
  else if r.status = .jstr (STATUS_CONSTANTS "INPROGRESS") ∧
      ipet_live r.in_progress_expiry_timestamp now = true then
    .itemAlreadyExists
  else
    .orphanRecord

/-- `_put_in_progress_record`: serialize the in-progress mapping, compute
the TTL from the mapping's expiry slot, attempt the NX create; on an
existing record fetch and classify it (completed-and-fresh or
in-progress-and-live raise `ItemAlreadyExists`, anything else is an
orphan); the orphan classification — including a non-JSON stored text —
is handled by lock-protected forced overwrite. Backend exceptions are
re-raised unchanged, as are all other exceptions (lines 399-403). -/
def put_in_progress_recordM {σ : Type} (c : LayerCfg) (C : RedisClientM σ)
    (rec : DataRecord) (now : Int) (s : σ) : Except (PyExc × σ) σ :=
  let mapping := in_progress_mapping c rec
  let encoded := RValue.vjson mapping
  match get_expiry_second c ((mget mapping c.expiry_attr).getD .jnull) now with
  | .error e => .error (e, s)
  | .ok ttl =>
    let attempt : Except (PyExc × σ) σ :=
      match C.set rec.idempotency_key encoded ttl true now s with
      | .error re => .error (.redisExc re, s)
      | .ok (some _, s1) => .ok s1
      | .ok (none, s1) =>
        match get_recordM c C rec.idempotency_key now s1 with
        | .error e => .error e
        | .ok (r, s2) => .error (classify_existing r now, s2)
    orphan_catchM c C rec.idempotency_key encoded ttl now attempt

/-- The result of `_get_expiry_second` is an error only for a truthy
non-integer argument, and that error is a `TypeError`. -/
theorem get_expiry_second_error (c : LayerCfg) (x : JsonVal) (now : Int)
    (e : PyExc) (h : get_expiry_second c x now = .error e) :
    e = .typeError := by
  unfold get_expiry_second at h
  split at h
  · rcases x <;> simp_all
  · simp_all

/-- `_put_record`: only in-progress records may be created; anything else
raises `NotImplementedError` before any store operation. -/
def put_recordM {σ : Type} (c : LayerCfg) (C : RedisClientM σ)
    (rec : DataRecord) (now : Int) (s : σ) : Except (PyExc × σ) σ :=
  if rec.status = .jstr (STATUS_CONSTANTS "INPROGRESS") then
    put_in_progress_recordM c C rec now s
  else .error (.notImplementedError, s)

/-- `_update_record`: unconditional overwrite with data, status and expiry,
re-arming the TTL from the record's expiry timestamp. -/
def update_recordM {σ : Type} (c : LayerCfg) (C : RedisClientM σ)
    (rec : DataRecord) (now : Int) (s : σ) : Except (PyExc × σ) σ :=
  let mapping := dinsert (dinsert (dinsert [] c.data_attr
    (.jstr rec.response_data)) c.status_attr rec.status) c.expiry_attr
    (jvOfOpt rec.expiry_timestamp)
  match get_expiry_second c (jvOfOpt rec.expiry_timestamp) now with
  | .error e => .error (e, s)
  | .ok ttl =>
    match C.set rec.idempotency_key (.vjson mapping) ttl false now s with
    | .error re => .error (.redisExc re, s)
    | .ok (_, s1) => .ok s1

/-- `_delete_record`: unconditional DELETE of the idempotency key. -/
def delete_recordM {σ : Type} (C : RedisClientM σ) (rec : DataRecord)
    (s : σ) : Except (PyExc × σ) σ :=
  match C.del rec.idempotency_key s with
  | .error re => .error (.redisExc re, s)
  | .ok s1 => .ok s1

/-- Forget the state carried by an error: the caller of the layer sees
only the exception. -/
def stripSt {α : Type} : Except (PyExc × Store) α → Except PyExc α
  | .ok a => .ok a
  | .error (e, _) => .error e

/-- `_get_record` over the ideal store. -/
def get_record (c : LayerCfg) (key : String) (now : Int) (s : Store) :
    Except PyExc DataRecord :=
  stripSt ((get_recordM c idealClient key now s).map Prod.fst)

/-- `_put_in_progress_record` over the ideal store. -/
def put_in_progress_record (c : LayerCfg) (rec : DataRecord) (now : Int)
    (s : Store) : Except PyExc Store :=
  stripSt (put_in_progress_recordM c idealClient rec now s)

/-- `_put_record` over the ideal store. -/
def put_record (c : LayerCfg) (rec : DataRecord) (now : Int) (s : Store) :
    Except PyExc Store :=
  stripSt (put_recordM c idealClient rec now s)

/-- `_update_record` over the ideal store. -/
def update_record (c : LayerCfg) (rec : DataRecord) (now : Int) (s : Store) :
    Except PyExc Store :=
  stripSt (update_recordM c idealClient rec now s)

/-- `_delete_record` over the ideal store. -/
def delete_record (rec : DataRecord) (s : Store) : Except PyExc Store :=
  stripSt (delete_recordM idealClient rec s)

/-- `_acquire_lock` over the ideal store. -/
def acquire_lock (c : LayerCfg) (name : String) (now : Int) (s : Store) :
    Except PyExc Store :=
  stripSt (acquire_lockM c idealClient name now s)

/-- The orphan-recovery handler over the ideal store. -/
def recover_orphan (c : LayerCfg) (name : String) (encoded : RValue)
    (ttl now : Int) (s : Store) : Except PyExc Store :=
  stripSt (recover_orphanM c idealClient name encoded ttl now s)

/-! Store lemmas. -/

theorem lookup_storeDel (s : Store) (k : String) :
    List.lookup k (storeDel s k) = none := by
  induction s with
  | nil => rfl
  | cons p t ih =>
    by_cases h : p.1 = k
    · simpa [storeDel, List.filter_cons, h] using ih
    · have hk : (k == p.1) = false := by
        simp [beq_eq_false_iff_ne, Ne.symm h]
      simpa [storeDel, List.filter_cons, h, List.lookup, hk] using ih

theorem storeGet_storeDel (s : Store) (k : String) (now : Int) :
    storeGet (storeDel s k) k now = none := by
  simp [storeGet, lookup_storeDel]

theorem storeGet_storeSet_self (s : Store) (k : String) (v : RValue)
    (ttl now t : Int) :
    storeGet (storeSet s k v ttl now) k t =
      if t < now + ttl then some v else none := by
  simp [storeGet, storeSet, List.lookup]

/-! Reduction lemmas for the layer operations over the ideal store. -/

/-- The classification of an existing record is always `ItemAlreadyExists`
or `OrphanRecord`. -/
theorem classify_existing_cases (r : DataRecord) (now : Int) :
    classify_existing r now = .itemAlreadyExists ∨
      classify_existing r now = .orphanRecord := by
  unfold classify_existing
  split_ifs <;> simp

/-- A completed record that is not expired classifies as
`ItemAlreadyExists`. -/
theorem classify_completed_fresh (r : DataRecord) (now : Int)
    (h1 : r.status = .jstr "COMPLETED") (h2 : r.is_expired now = false) :
    classify_existing r now = .itemAlreadyExists := by
  simp [classify_existing, STATUS_CONSTANTS, h1, h2]

/-- An in-progress record whose millisecond deadline is nonzero and still
in the future classifies as `ItemAlreadyExists`. -/
theorem classify_inprogress_live (r : DataRecord) (now t : Int)
    (h1 : r.status = .jstr "INPROGRESS")
    (h2 : r.in_progress_expiry_timestamp = some t)
    (h3 : now * 1000 < t) (h4 : t ≠ 0) :
    classify_existing r now = .itemAlreadyExists := by
  simp [classify_existing, STATUS_CONSTANTS, h1, ipet_live, h2, h3, h4]

/-- Any record matching neither guard classifies as `OrphanRecord`. -/
theorem classify_orphan (r : DataRecord) (now : Int)
    (h1 : ¬ (r.status = .jstr (STATUS_CONSTANTS "COMPLETED") ∧
      r.is_expired now = false))
    (h2 : ¬ (r.status = .jstr (STATUS_CONSTANTS "INPROGRESS") ∧
      ipet_live r.in_progress_expiry_timestamp now = true)) :
    classify_existing r now = .orphanRecord := by
  unfold classify_existing
  rw [if_neg h1, if_neg h2]

/-- When the key holds no live value, the NX create wins and the call
returns the updated store without any read. -/
theorem put_in_progress_of_absent (c : LayerCfg) (rec : DataRecord)
    (now ttl : Int) (s : Store)
    (Httl : get_expiry_second c
      ((mget (in_progress_mapping c rec) c.expiry_attr).getD .jnull) now = .ok ttl)
    (Hget : storeGet s rec.idempotency_key now = none) :
    put_in_progress_record c rec now s =
      .ok (storeSet s rec.idempotency_key
        (.vjson (in_progress_mapping c rec)) ttl now) := by
  unfold put_in_progress_record put_in_progress_recordM
  simp only [Httl, idealClient, storeSetNX, Hget, if_true]
  simp [orphan_catchM, stripSt]

/-- When the key holds a live serialized mapping that parses into a
record, the call raises the classification of that record when it is
`ItemAlreadyExists`, and otherwise runs the orphan-recovery handler. -/
theorem put_in_progress_of_live (c : LayerCfg) (rec : DataRecord)
    (now ttl : Int) (s : Store) (m : RecordMap) (r : DataRecord)
    (Httl : get_expiry_second c
      ((mget (in_progress_mapping c rec) c.expiry_attr).getD .jnull) now = .ok ttl)
    (Hget : storeGet s rec.idempotency_key now = some (.vjson m))
    (Hparse : item_to_data_record c rec.idempotency_key m = .ok r) :
    put_in_progress_record c rec now s =
      if classify_existing r now = .itemAlreadyExists then
        .error .itemAlreadyExists
      else
        recover_orphan c rec.idempotency_key
          (.vjson (in_progress_mapping c rec)) ttl now s := by
  unfold put_in_progress_record put_in_progress_recordM get_recordM
  simp only [Httl, idealClient, storeSetNX, Hget, Hparse, pyFalsyR,
    eq_self_iff_true, if_true]
  simp
  rcases classify_existing_cases r now with h | h <;> simp only [h] <;>
    rfl

/-- A free lock key lets `_acquire_lock` create the lock entry. -/
theorem acquire_lock_free (c : LayerCfg) (name : String) (now : Int)
    (s : Store) (h : storeGet s (name ++ ":lock") now = none) :
    acquire_lock c name now s =
      .ok (storeSet s (name ++ ":lock") (.vraw "True")
        c.orphan_lock_timeout now) := by
  simp [acquire_lock, acquire_lockM, idealClient, storeSetNX, h, stripSt]

/-- A held (live) lock key makes `_acquire_lock` raise
`ItemAlreadyExists`. -/
theorem acquire_lock_held (c : LayerCfg) (name : String) (now : Int)
    (s : Store) (v : RValue)
    (h : storeGet s (name ++ ":lock") now = some v) :
    acquire_lock c name now s = .error .itemAlreadyExists := by
  simp [acquire_lock, acquire_lockM, idealClient, storeSetNX, h, stripSt]

/-- A free lock key lets recovery force the overwrite: lock entry plus the
new record. -/
theorem recover_orphan_free (c : LayerCfg) (name : String)
    (encoded : RValue) (ttl now : Int) (s : Store)
    (h : storeGet s (name ++ ":lock") now = none) :
    recover_orphan c name encoded ttl now s =
      .ok (storeSet (storeSet s (name ++ ":lock") (.vraw "True")
        c.orphan_lock_timeout now) name encoded ttl now) := by
  simp [recover_orphan, recover_orphanM, acquire_lockM, idealClient,
    storeSetNX, h, stripSt]

/-- A held lock key makes recovery raise `ItemAlreadyExists`. -/
theorem recover_orphan_held (c : LayerCfg) (name : String)
    (encoded : RValue) (ttl now : Int) (s : Store) (v : RValue)
    (h : storeGet s (name ++ ":lock") now = some v) :
    recover_orphan c name encoded ttl now s = .error .itemAlreadyExists := by
  simp [recover_orphan, recover_orphanM, acquire_lockM, idealClient,
    storeSetNX, h, stripSt]

/-- Recovery over the ideal store either succeeds or raises
`ItemAlreadyExists`. -/
theorem recover_orphan_cases (c : LayerCfg) (name : String)
    (encoded : RValue) (ttl now : Int) (s : Store) :
    (∃ s1, recover_orphan c name encoded ttl now s = .ok s1) ∨
      recover_orphan c name encoded ttl now s = .error .itemAlreadyExists := by
  cases h : storeGet s (name ++ ":lock") now with
  | none => exact .inl ⟨_, recover_orphan_free c name encoded ttl now s h⟩
  | some v => exact .inr (recover_orphan_held c name encoded ttl now s v h)

/-- An absent (or TTL-expired) key makes `_get_record` raise
`ItemNotFound`. -/
theorem get_record_absent (c : LayerCfg) (key : String) (now : Int)
    (s : Store) (h : storeGet s key now = none) :
    get_record c key now s = .error .itemNotFound := by
  simp [get_record, get_recordM, idealClient, h, stripSt, Except.map]

/-- A live empty string is falsy, so `_get_record` raises `ItemNotFound`
for it as well. -/
theorem get_record_empty (c : LayerCfg) (key : String) (now : Int)
    (s : Store) (h : storeGet s key now = some (.vraw "")) :
    get_record c key now s = .error .itemNotFound := by
  simp [get_record, get_recordM, idealClient, h, pyFalsyR, stripSt, Except.map]

/-- A live non-empty non-JSON text makes `_get_record` raise
`OrphanRecord` (the `json.JSONDecodeError` branch). -/
theorem get_record_junk (c : LayerCfg) (key : String) (now : Int)
    (s : Store) (str : String) (hs : str ≠ "")
    (h : storeGet s key now = some (.vraw str)) :
    get_record c key now s = .error .orphanRecord := by
  have hf : pyFalsyR (.vraw str) = false := by
    unfold pyFalsyR
    split
    · simp_all
    · rfl
  simp [get_record, get_recordM, idealClient, h, hf, stripSt, Except.map]

/-- A live JSON document that is not a mapping crashes the conversion with
an `AttributeError`, not a taxonomy exception. -/
theorem get_record_nonmap (c : LayerCfg) (key : String) (now : Int)
    (s : Store) (h : storeGet s key now = some .vjsonNonMap) :
    get_record c key now s = .error .attributeError := by
  simp [get_record, get_recordM, idealClient, h, pyFalsyR, stripSt, Except.map]

/-- A live serialized mapping routes `_get_record` to
`_item_to_data_record`. -/
theorem get_record_live (c : LayerCfg) (key : String) (now : Int)
    (s : Store) (m : RecordMap)
    (h : storeGet s key now = some (.vjson m)) :
    get_record c key now s = item_to_data_record c key m := by
  cases hp : item_to_data_record c key m with
  | ok r => simp [get_record, get_recordM, idealClient, h, pyFalsyR, hp, stripSt, Except.map]
  | error e => simp [get_record, get_recordM, idealClient, h, pyFalsyR, hp, stripSt, Except.map]

/-- A failing `int(...)` conversion is the only error of the in-progress
field read, and it is a `ValueError`. -/
theorem parse_ipet_error (x : Option JsonVal) (e : PyExc)
    (h : parse_ipet x = .error e) : e = .valueError := by
  rcases x with _ | v
  · simp [parse_ipet] at h
  · rcases v with _ | i | str
    · simp [parse_ipet] at h
    · simp [parse_ipet] at h
    · simp only [parse_ipet] at h
      rcases hs : str.toInt? with _ | i <;> rw [hs] at h <;> simp_all

/-- The conversion from a mapping to a record fails only with `ValueError`
or `KeyError`. -/
theorem item_to_data_record_errors (c : LayerCfg) (key : String)
    (m : RecordMap) (e : PyExc)
    (h : item_to_data_record c key m = .error e) :
    e = .valueError ∨ e = .keyError := by
  unfold item_to_data_record at h
  rcases hp : parse_ipet (mget m c.in_progress_expiry_attr) with e1 | ipet
  · rw [hp] at h
    have he1 : e1 = .valueError := parse_ipet_error _ _ hp
    simp_all
  · rw [hp] at h
    rcases hst : mget m c.status_attr with _ | st <;> rw [hst] at h <;>
      simp_all

/-- Recovery over the ideal client either succeeds or raises
`ItemAlreadyExists` (state-carrying form). -/
theorem recover_orphanM_ideal_cases (c : LayerCfg) (name : String)
    (enc : RValue) (ttl now : Int) (s : Store) :
    (∃ s1, recover_orphanM c idealClient name enc ttl now s = .ok s1) ∨
      (∃ s1, recover_orphanM c idealClient name enc ttl now s =
        .error (.itemAlreadyExists, s1)) := by
  unfold recover_orphanM acquire_lockM
  cases h : storeGet s (name ++ ":lock") now <;>
    simp [idealClient, storeSetNX, h]

/-- Whatever the NX-create attempt produced, catching the orphan
classification and delegating to recovery never lets `OrphanRecord`
escape. -/
theorem orphan_catchM_ideal_ne_orphan (c : LayerCfg) (name : String)
    (enc : RValue) (ttl now : Int) (att : Except (PyExc × Store) Store)
    (x : Store) :
    orphan_catchM c idealClient name enc ttl now att ≠
      .error (.orphanRecord, x) := by
  unfold orphan_catchM
  rcases att with ⟨e, s1⟩ | s1
  · rcases e with _ | _ | _ | _ | _ | _ | _ | _ | _ | _ | re
    case orphanRecord =>
      rcases recover_orphanM_ideal_cases c name enc ttl now s1 with
        ⟨s2, h⟩ | ⟨s2, h⟩ <;> simp [h]
    all_goals simp
  · simp

/-- Forgetting the carried state preserves not-raising-`OrphanRecord`. -/
theorem stripSt_ne_orphan (att : Except (PyExc × Store) Store)
    (h : ∀ x, att ≠ .error (.orphanRecord, x)) :
    stripSt att ≠ .error .orphanRecord := by
  rcases att with ⟨e, s1⟩ | s1
  · simp only [stripSt]
    intro hc
    rw [show e = PyExc.orphanRecord from by injection hc] at h
    exact h s1 rfl
  · simp [stripSt]

/-- `_put_in_progress_record` never raises `OrphanRecord`: the internal
classification is always caught and resolved by recovery. -/
theorem put_in_progress_record_ne_orphan (c : LayerCfg) (rec : DataRecord)
    (now : Int) (s : Store) :
    put_in_progress_record c rec now s ≠ .error .orphanRecord := by
  unfold put_in_progress_record put_in_progress_recordM
  rcases he : get_expiry_second c
      ((mget (in_progress_mapping c rec) c.expiry_attr).getD .jnull) now with
    e | ttl
  · simp only [he]
    have het : e = .typeError := get_expiry_second_error _ _ _ _ he
    subst het
    simp [stripSt]
  · simp only [he]
    exact stripSt_ne_orphan _ (fun x => orphan_catchM_ideal_ne_orphan c
      rec.idempotency_key (RValue.vjson (in_progress_mapping c rec)) ttl now _ x)

/-! Claim theorems. -/

/-- C8: after `delete_in_progress(K)` — an unconditional DELETE of the
idempotency key — a subsequent `get_record(K)` raises `ItemNotFound`. -/
theorem c8_delete_then_get_not_found (c : LayerCfg) (rec : DataRecord)
    (now : Int) (s s1 : Store)
    (hdel : delete_record rec s = .ok s1) :
    get_record c rec.idempotency_key now s1 = .error .itemNotFound := by
  have hs1 : s1 = storeDel s rec.idempotency_key := by
    simp [delete_record, delete_recordM, idealClient, stripSt] at hdel
    exact hdel.symm
  subst hs1
  exact get_record_absent _ _ _ _ (storeGet_storeDel s _ now)

/-- C8 witness. -/
theorem c8_delete_then_get_not_found_witness :
    delete_record ⟨"k", .jstr "INPROGRESS", none, "None", "None", none⟩
        [("k", ⟨.vraw "x", 100⟩)] = .ok [] ∧
    get_record defaultCfg "k" 0 [] = .error .itemNotFound :=
  ⟨rfl, c8_delete_then_get_not_found defaultCfg
    ⟨"k", .jstr "INPROGRESS", none, "None", "None", none⟩ 0
    [("k", ⟨.vraw "x", 100⟩)] [] rfl⟩

/-- C9: `_put_record` creates only in-progress records; any other status
raises `NotImplementedError` with the client state untouched, over any
client. -/
theorem c9_put_record_only_inprogress {σ : Type} (c : LayerCfg)
    (C : RedisClientM σ) (rec : DataRecord) (now : Int) (s : σ)
    (h : rec.status ≠ .jstr (STATUS_CONSTANTS "INPROGRESS")) :
    put_recordM c C rec now s = .error (.notImplementedError, s) := by
  unfold put_recordM
  rw [if_neg h]

/-- C9 witness. -/
theorem c9_put_record_only_inprogress_witness :
    (⟨"k", .jstr "COMPLETED", none, "r", "p", none⟩ : DataRecord).status ≠
        .jstr (STATUS_CONSTANTS "INPROGRESS") ∧
    put_recordM defaultCfg idealClient
        ⟨"k", .jstr "COMPLETED", none, "r", "p", none⟩ 0 [] =
      .error (.notImplementedError, []) :=
  ⟨by decide, c9_put_record_only_inprogress defaultCfg idealClient
    ⟨"k", .jstr "COMPLETED", none, "r", "p", none⟩ 0 [] (by decide)⟩

/-- C10: a stored mapping lacking the data attribute and the validation
attribute is read back with the literal text `None` in `response_data`
and `payload_hash` — absent optional fields are stringified. -/
theorem c10_absent_fields_stringified (c : LayerCfg) (key : String)
    (now : Int) (s : Store) (m : RecordMap) (r : DataRecord)
    (hdata : mget m c.data_attr = none)
    (hval : mget m c.validation_key_attr = none)
    (hget : storeGet s key now = some (.vjson m))
    (hok : get_record c key now s = .ok r) :
    r.response_data = "None" ∧ r.payload_hash = "None" := by
  rw [get_record_live c key now s m hget] at hok
  unfold item_to_data_record at hok
  rcases hp : parse_ipet (mget m c.in_progress_expiry_attr) with e | ipet <;>
    rw [hp] at hok
  · simp at hok
  · rcases hst : mget m c.status_attr with _ | st <;> rw [hst] at hok
    · simp at hok
    · simp only [Except.ok.injEq] at hok
      subst hok
      simp [hdata, hval, pyStr]

/-- C10 witness. -/
theorem c10_absent_fields_stringified_witness :
    mget [("status", .jstr "INPROGRESS")] defaultCfg.data_attr = none ∧
    mget [("status", .jstr "INPROGRESS")] defaultCfg.validation_key_attr = none ∧
    storeGet [("k", ⟨.vjson [("status", .jstr "INPROGRESS")], 100⟩)] "k" 0 =
      some (.vjson [("status", .jstr "INPROGRESS")]) ∧
    get_record defaultCfg "k" 0
        [("k", ⟨.vjson [("status", .jstr "INPROGRESS")], 100⟩)] =
      .ok ⟨"k", .jstr "INPROGRESS", none, "None", "None", none⟩ ∧
    (⟨"k", .jstr "INPROGRESS", none, "None", "None", none⟩ :
        DataRecord).response_data = "None" ∧
    (⟨"k", .jstr "INPROGRESS", none, "None", "None", none⟩ :
        DataRecord).payload_hash = "None" := by
  refine ⟨rfl, rfl, rfl, rfl, ?_⟩
  exact c10_absent_fields_stringified defaultCfg "k" 0
    [("k", ⟨.vjson [("status", .jstr "INPROGRESS")], 100⟩)]
    [("status", .jstr "INPROGRESS")]
    ⟨"k", .jstr "INPROGRESS", none, "None", "None", none⟩ rfl rfl rfl rfl

/-- C7: the orphan-recovery lock TTL is `min(10, expires_after_seconds)`,
hence at most ten seconds and at most the configured expiry window, and
the lock key is exactly the idempotency key with the lock suffix. -/
theorem c7_lock_ttl_and_key (c : LayerCfg) (name : String) (now : Int)
    (s : Store) :
    c.orphan_lock_timeout = min 10 c.expires_after_seconds ∧
    c.orphan_lock_timeout ≤ 10 ∧
    c.orphan_lock_timeout ≤ c.expires_after_seconds ∧
    (storeGet s (name ++ ":lock") now = none →
      acquire_lock c name now s =
        .ok (storeSet s (name ++ ":lock") (.vraw "True")
          c.orphan_lock_timeout now)) :=
  ⟨rfl, min_le_left _ _, min_le_right _ _,
    fun h => acquire_lock_free c name now s h⟩

/-- C7 witness. -/
theorem c7_lock_ttl_and_key_witness :
    storeGet [] ("k" ++ ":lock") 0 = none ∧
    (defaultCfg.orphan_lock_timeout = min 10 defaultCfg.expires_after_seconds ∧
     defaultCfg.orphan_lock_timeout ≤ 10 ∧
     defaultCfg.orphan_lock_timeout ≤ defaultCfg.expires_after_seconds ∧
     (storeGet [] ("k" ++ ":lock") 0 = none →
       acquire_lock defaultCfg "k" 0 [] =
         .ok (storeSet [] ("k" ++ ":lock") (.vraw "True")
           defaultCfg.orphan_lock_timeout 0))) :=
  ⟨rfl, c7_lock_ttl_and_key defaultCfg "k" 0 []⟩

/-- C6 counterexample: a live empty-string value is held by the store for
the key, cannot be deserialized into a record, yet `_get_record` raises
`ItemNotFound` (the falsiness check fires first), not `OrphanRecord`. -/
theorem c6_counterexample :
    storeGet [("k", ⟨.vraw "", 100⟩)] "k" 0 = some (.vraw "") ∧
    get_record defaultCfg "k" 0 [("k", ⟨.vraw "", 100⟩)] =
      .error .itemNotFound ∧
    PyExc.itemNotFound ≠ PyExc.orphanRecord :=
  ⟨rfl, rfl, by decide⟩

/-- C6 as amended: `_get_record` raises `ItemNotFound` exactly when the
store holds no live value or a live empty value for the key; it raises
`OrphanRecord` for every live non-empty value that does not parse as
JSON; values that parse as JSON but are not record mappings fail with
ordinary Python errors (`AttributeError`, `KeyError`, `ValueError`), not
`OrphanRecord`. -/
theorem c6_get_record_error_partition (c : LayerCfg) (key : String)
    (now : Int) (s : Store) :
    (get_record c key now s = .error .itemNotFound ↔
      (storeGet s key now = none ∨ storeGet s key now = some (.vraw ""))) ∧
    (∀ str, str ≠ "" → storeGet s key now = some (.vraw str) →
      get_record c key now s = .error .orphanRecord) ∧
    (storeGet s key now = some .vjsonNonMap →
      get_record c key now s = .error .attributeError) ∧
    (∀ m e, storeGet s key now = some (.vjson m) →
      get_record c key now s = .error e →
      e = .valueError ∨ e = .keyError) := by
  constructor
  · constructor
    · intro h
      rcases hg : storeGet s key now with _ | v
      · exact .inl rfl
      · rcases v with m | _ | str
        · rw [get_record_live c key now s m hg] at h
          rcases item_to_data_record_errors c key m _ h with h1 | h1 <;>
            simp at h1
        · rw [get_record_nonmap c key now s hg] at h
          simp at h
        · by_cases hstr : str = ""
          · subst hstr
            exact .inr rfl
          · rw [get_record_junk c key now s str hstr hg] at h
            simp at h
    · intro h
      rcases h with h | h
      · exact get_record_absent _ _ _ _ h
      · exact get_record_empty _ _ _ _ h
  refine ⟨fun str hstr hg => get_record_junk _ _ _ _ str hstr hg, ?_, ?_⟩
  · intro hg
    exact get_record_nonmap _ _ _ _ hg
  · intro m e hg he
    rw [get_record_live _ _ _ _ _ hg] at he
    exact item_to_data_record_errors c key m e he

/-- C6 witness for the amended statement. -/
theorem c6_get_record_error_partition_witness :
    ((get_record defaultCfg "k" 0 [("k", ⟨.vraw "junk", 100⟩)] =
        .error .itemNotFound ↔
      (storeGet [("k", ⟨.vraw "junk", 100⟩)] "k" 0 = none ∨
        storeGet [("k", ⟨.vraw "junk", 100⟩)] "k" 0 = some (.vraw ""))) ∧
     (∀ str, str ≠ "" →
        storeGet [("k", ⟨.vraw "junk", 100⟩)] "k" 0 = some (.vraw str) →
        get_record defaultCfg "k" 0 [("k", ⟨.vraw "junk", 100⟩)] =
          .error .orphanRecord) ∧
     (storeGet [("k", ⟨.vraw "junk", 100⟩)] "k" 0 = some .vjsonNonMap →
        get_record defaultCfg "k" 0 [("k", ⟨.vraw "junk", 100⟩)] =
          .error .attributeError) ∧
     (∀ m e, storeGet [("k", ⟨.vraw "junk", 100⟩)] "k" 0 = some (.vjson m) →
        get_record defaultCfg "k" 0 [("k", ⟨.vraw "junk", 100⟩)] = .error e →
        e = .valueError ∨ e = .keyError)) :=
  c6_get_record_error_partition defaultCfg "k" 0 [("k", ⟨.vraw "junk", 100⟩)]

/-- C5, failing input: with the expiry attribute renamed to `exp`, a
completed record written with expiry timestamp 100 is read back with no
expiry timestamp at all — `_item_to_data_record` reads the hard-coded
field name `expiration` instead of the configured `expiry_attr`, so the
written expiry does not round-trip. -/
theorem c5_expiry_attr_bug :
    update_record { defaultCfg with expiry_attr := "exp" }
        ⟨"k", .jstr "COMPLETED", none, "res", "ph", some (.jint 100)⟩ 0 [] =
      .ok [("k", ⟨.vjson [("data", .jstr "res"), ("status", .jstr "COMPLETED"),
        ("exp", .jint 100)], 100⟩)] ∧
    get_record { defaultCfg with expiry_attr := "exp" } "k" 50
        [("k", ⟨.vjson [("data", .jstr "res"), ("status", .jstr "COMPLETED"),
          ("exp", .jint 100)], 100⟩)] =
      .ok ⟨"k", .jstr "COMPLETED", none, "res", "None", none⟩ ∧
    (some (JsonVal.jint 100) : Option JsonVal) ≠ none :=
  ⟨rfl, rfl, by decide⟩

/-- The faulty client: every backend call raises a backend-specific
`RedisError`. -/
def faultyClient : RedisClientM Unit where
  get := fun _ _ _ => .error .redisError
  set := fun _ _ _ _ _ _ => .error .redisError
  del := fun _ _ => .error .redisError

/-- C4 counterexample: a backend `RedisError` raised by the client's SET
propagates out of `_put_in_progress_record` unchanged — the `except`
clauses of lines 399-403 re-raise it as-is — so it is not translated into
any of the five taxonomy kinds. -/
theorem c4_counterexample :
    put_in_progress_recordM defaultCfg faultyClient
        ⟨"k", .jstr "INPROGRESS", some 1000, "None", "ph", some (.jint 100)⟩
        0 () =
      .error (.redisExc .redisError, ()) ∧
    PyExc.isTaxonomyKind (.redisExc .redisError) = false :=
  ⟨rfl, rfl⟩

/-- C4 as amended: a backend exception raised by the first store call of
`_put_in_progress_record` is re-raised unchanged (the same `RedisError`),
not mapped to a taxonomy kind. -/
theorem c4_redis_error_propagates_unchanged (c : LayerCfg)
    (rec : DataRecord) (now ttl : Int)
    (Httl : get_expiry_second c
      ((mget (in_progress_mapping c rec) c.expiry_attr).getD .jnull) now = .ok ttl) :
    put_in_progress_recordM c faultyClient rec now () =
      .error (.redisExc .redisError, ()) := by
  unfold put_in_progress_recordM
  simp only [Httl, faultyClient]
  simp [orphan_catchM]

/-- C4 witness for the amended statement. -/
theorem c4_redis_error_propagates_unchanged_witness :
    get_expiry_second defaultCfg
      ((mget (in_progress_mapping defaultCfg
        ⟨"k", .jstr "INPROGRESS", some 1000, "None", "ph", some (.jint 100)⟩)
        defaultCfg.expiry_attr).getD .jnull) 0 = .ok 100 ∧
    put_in_progress_recordM defaultCfg faultyClient
        ⟨"k", .jstr "INPROGRESS", some 1000, "None", "ph", some (.jint 100)⟩
        0 () =
      .error (.redisExc .redisError, ()) :=
  ⟨rfl, c4_redis_error_propagates_unchanged defaultCfg
    ⟨"k", .jstr "INPROGRESS", some 1000, "None", "ph", some (.jint 100)⟩
    0 100 rfl⟩

/-- `_update_record` reduces to an unconditional SET of the serialized
completed mapping with the recomputed TTL. -/
theorem update_record_reduces (c : LayerCfg) (rec : DataRecord) (now : Int)
    (s : Store) (ttl : Int)
    (Httl : get_expiry_second c (jvOfOpt rec.expiry_timestamp) now = .ok ttl) :
    update_record c rec now s =
      .ok (storeSet s rec.idempotency_key
        (.vjson (dinsert (dinsert (dinsert [] c.data_attr
          (.jstr rec.response_data)) c.status_attr rec.status) c.expiry_attr
          (jvOfOpt rec.expiry_timestamp))) ttl now) := by
  unfold update_record update_recordM
  simp only [Httl, idealClient]
  simp [stripSt]

/-- C2: once `_update_record` has written a completed record with a future
expiry, a save-in-progress attempt before that expiry raises
`ItemAlreadyExists`, and `_get_record` returns the completed record with
the stored response data. -/
theorem c2_completed_record_replays (K R ph rd2 ph2 : String)
    (e now1 now2 : Int) (ipet1 ipet2 : Option Int) (oe2 : Option JsonVal)
    (s s1 : Store)
    (Hpos : 0 ≤ now1) (Hfut : now1 < e) (Hbefore : now2 < e)
    (Hoe2 : oe2 = none ∨ ∃ i, oe2 = some (.jint i))
    (Hupd : update_record defaultCfg
      ⟨K, .jstr "COMPLETED", ipet1, R, ph, some (.jint e)⟩ now1 s = .ok s1) :
    put_in_progress_record defaultCfg
        ⟨K, .jstr "INPROGRESS", ipet2, rd2, ph2, oe2⟩ now2 s1 =
      .error .itemAlreadyExists ∧
    get_record defaultCfg K now2 s1 =
      .ok ⟨K, .jstr "COMPLETED", none, R, "None", some (.jint e)⟩ := by
  have hne : e ≠ 0 := by omega
  have Httl1 : get_expiry_second defaultCfg (jvOfOpt (some (.jint e))) now1 =
      .ok (e - now1) := by
    simp [get_expiry_second, jvOfOpt, pyTruthy, hne]
  have hupd2 := update_record_reduces defaultCfg
    ⟨K, .jstr "COMPLETED", ipet1, R, ph, some (.jint e)⟩ now1 s (e - now1) Httl1
  rw [Hupd] at hupd2
  have hs1 : s1 = storeSet s K
      (.vjson [("data", .jstr R), ("status", .jstr "COMPLETED"),
        ("expiration", .jint e)]) (e - now1) now1 := by
    injection hupd2
  subst hs1
  have hget : storeGet (storeSet s K
      (.vjson [("data", .jstr R), ("status", .jstr "COMPLETED"),
        ("expiration", .jint e)]) (e - now1) now1) K now2 =
      some (.vjson [("data", .jstr R), ("status", .jstr "COMPLETED"),
        ("expiration", .jint e)]) := by
    rw [storeGet_storeSet_self]
    rw [if_pos (by omega : now2 < now1 + (e - now1))]
  have hparse : item_to_data_record defaultCfg K
      [("data", .jstr R), ("status", .jstr "COMPLETED"),
        ("expiration", .jint e)] =
      .ok ⟨K, .jstr "COMPLETED", none, R, "None", some (.jint e)⟩ := rfl
  refine ⟨?_, ?_⟩
  · have hmap2 : (mget (in_progress_mapping defaultCfg
        ⟨K, .jstr "INPROGRESS", ipet2, rd2, ph2, oe2⟩)
        defaultCfg.expiry_attr).getD .jnull = jvOfOpt oe2 := by
      cases ipet2 <;> rfl
    obtain ⟨ttl2, Httl2⟩ : ∃ ttl2,
        get_expiry_second defaultCfg (jvOfOpt oe2) now2 = .ok ttl2 := by
      rcases Hoe2 with h | ⟨i, h⟩ <;> subst h
      · exact ⟨defaultCfg.expires_after_seconds,
          by simp [get_expiry_second, jvOfOpt, pyTruthy]⟩
      · by_cases hi : i = 0
        · subst hi
          exact ⟨defaultCfg.expires_after_seconds,
            by simp [get_expiry_second, jvOfOpt, pyTruthy]⟩
        · exact ⟨i - now2,
            by simp [get_expiry_second, jvOfOpt, pyTruthy, hi]⟩
    have Httl2x : get_expiry_second defaultCfg
        ((mget (in_progress_mapping defaultCfg
          ⟨K, .jstr "INPROGRESS", ipet2, rd2, ph2, oe2⟩)
          defaultCfg.expiry_attr).getD .jnull) now2 = .ok ttl2 := by
      rw [hmap2]
      exact Httl2
    rw [put_in_progress_of_live defaultCfg
      ⟨K, .jstr "INPROGRESS", ipet2, rd2, ph2, oe2⟩ now2 ttl2 _
      _ _ Httl2x hget hparse]
    rw [if_pos (classify_completed_fresh _ now2 rfl
      (by simp [DataRecord.is_expired]; omega))]
  · rw [get_record_live _ _ _ _ _ hget]
    exact hparse

/-- C2 witness. -/
theorem c2_completed_record_replays_witness :
    ((0:Int) ≤ 0 ∧ (0:Int) < 100 ∧ (50:Int) < 100 ∧
     ((none : Option JsonVal) = none ∨
       ∃ i, (none : Option JsonVal) = some (.jint i)) ∧
     update_record defaultCfg
       ⟨"k", .jstr "COMPLETED", none, "res", "p", some (.jint 100)⟩ 0 [] =
       .ok [("k", ⟨.vjson [("data", .jstr "res"),
         ("status", .jstr "COMPLETED"), ("expiration", .jint 100)], 100⟩)]) ∧
    (put_in_progress_record defaultCfg
        ⟨"k", .jstr "INPROGRESS", some 1000, "None", "q", none⟩ 50
        [("k", ⟨.vjson [("data", .jstr "res"),
          ("status", .jstr "COMPLETED"), ("expiration", .jint 100)], 100⟩)] =
      .error .itemAlreadyExists ∧
     get_record defaultCfg "k" 50
        [("k", ⟨.vjson [("data", .jstr "res"),
          ("status", .jstr "COMPLETED"), ("expiration", .jint 100)], 100⟩)] =
      .ok ⟨"k", .jstr "COMPLETED", none, "res", "None", some (.jint 100)⟩) :=
  ⟨⟨by decide, by decide, by decide, .inl rfl, rfl⟩,
   c2_completed_record_replays "k" "res" "p" "None" "q" 100 0 50 none
     (some 1000) none [] _ (by decide) (by decide) (by decide)
     (.inl rfl) rfl⟩

/-- A live in-progress deadline is precisely a nonzero timestamp strictly
beyond `now` in milliseconds. -/
theorem ipet_live_iff (o : Option Int) (now : Int) :
    ipet_live o now = true ↔
      ∃ t, o = some t ∧ t ≠ 0 ∧ now * 1000 < t := by
  cases o <;> simp [ipet_live]

/-- C1: classification of `_put_in_progress_record`. An absent key makes
the NX create succeed with no read of any existing record; a live parsed
record raises `ItemAlreadyExists` when completed-and-not-expired or
in-progress with a future millisecond deadline, and every other record is
classified as an orphan and enters orphan recovery. -/
theorem c1_put_in_progress_classification (c : LayerCfg) (rec : DataRecord)
    (now ttl : Int) (s : Store) (Hnow : 0 ≤ now)
    (Httl : get_expiry_second c
      ((mget (in_progress_mapping c rec) c.expiry_attr).getD .jnull) now = .ok ttl) :
    (storeGet s rec.idempotency_key now = none →
      put_in_progress_record c rec now s =
        .ok (storeSet s rec.idempotency_key
          (.vjson (in_progress_mapping c rec)) ttl now)) ∧
    (∀ m r, storeGet s rec.idempotency_key now = some (.vjson m) →
      item_to_data_record c rec.idempotency_key m = .ok r →
      ((r.status = .jstr "COMPLETED" ∧ r.is_expired now = false →
          put_in_progress_record c rec now s = .error .itemAlreadyExists) ∧
       (∀ t, r.status = .jstr "INPROGRESS" →
          r.in_progress_expiry_timestamp = some t → now * 1000 < t →
          put_in_progress_record c rec now s = .error .itemAlreadyExists) ∧
       (¬ (r.status = .jstr "COMPLETED" ∧ r.is_expired now = false) →
        ¬ (r.status = .jstr "INPROGRESS" ∧
            ∃ t, r.in_progress_expiry_timestamp = some t ∧ now * 1000 < t) →
          put_in_progress_record c rec now s =
            recover_orphan c rec.idempotency_key
              (.vjson (in_progress_mapping c rec)) ttl now s))) := by
  refine ⟨fun hget => put_in_progress_of_absent c rec now ttl s Httl hget, ?_⟩
  intro m r hget hparse
  refine ⟨?_, ?_, ?_⟩
  · rintro ⟨h1, h2⟩
    rw [put_in_progress_of_live c rec now ttl s m r Httl hget hparse]
    rw [if_pos (classify_completed_fresh r now h1 h2)]
  · intro t h1 h2 h3
    rw [put_in_progress_of_live c rec now ttl s m r Httl hget hparse]
    have h4 : t ≠ 0 := by omega
    rw [if_pos (classify_inprogress_live r now t h1 h2 h3 h4)]
  · intro hnc1 hnc2
    rw [put_in_progress_of_live c rec now ttl s m r Httl hget hparse]
    have hcl : classify_existing r now = .orphanRecord := by
      apply classify_orphan r now
      · exact hnc1
      · rintro ⟨hst, hlive⟩
        apply hnc2
        obtain ⟨t, hsome, ht0, hlt⟩ := (ipet_live_iff _ _).1 hlive
        exact ⟨hst, t, hsome, hlt⟩
    rw [hcl, if_neg (by decide)]

/-- C1 witness (the absent-key branch, with a concrete live-record store
for the classification branches). -/
theorem c1_put_in_progress_classification_witness :
    ((0:Int) ≤ 5 ∧
     get_expiry_second defaultCfg
       ((mget (in_progress_mapping defaultCfg
         ⟨"k", .jstr "INPROGRESS", some 99999, "None", "", some (.jint 100)⟩)
         defaultCfg.expiry_attr).getD .jnull) 5 = .ok 95) ∧
    (storeGet [] "k" 5 = none →
      put_in_progress_record defaultCfg
          ⟨"k", .jstr "INPROGRESS", some 99999, "None", "", some (.jint 100)⟩
          5 [] =
        .ok (storeSet [] "k"
          (.vjson (in_progress_mapping defaultCfg
            ⟨"k", .jstr "INPROGRESS", some 99999, "None", "",
              some (.jint 100)⟩)) 95 5)) :=
  ⟨⟨by decide, rfl⟩,
   (c1_put_in_progress_classification defaultCfg
     ⟨"k", .jstr "INPROGRESS", some 99999, "None", "", some (.jint 100)⟩
     5 95 [] (by decide) rfl).1⟩

/-- C3: `_put_in_progress_record` never raises `OrphanRecord`; inside
orphan recovery a failed NX create of the lock key raises
`ItemAlreadyExists`; recovery as a whole either succeeds with a forced
overwrite or raises `ItemAlreadyExists`. -/
theorem c3_orphan_never_escapes (c : LayerCfg) (rec : DataRecord)
    (name : String) (encoded : RValue) (ttl now : Int) (s : Store) :
    put_in_progress_record c rec now s ≠ .error .orphanRecord ∧
    (∀ v, storeGet s (name ++ ":lock") now = some v →
      acquire_lock c name now s = .error .itemAlreadyExists) ∧
    ((∃ s1, recover_orphan c name encoded ttl now s = .ok s1) ∨
      recover_orphan c name encoded ttl now s = .error .itemAlreadyExists) :=
  ⟨put_in_progress_record_ne_orphan c rec now s,
   fun v h => acquire_lock_held c name now s v h,
   recover_orphan_cases c name encoded ttl now s⟩

/-- C3 witness: a held lock over a concrete store. -/
theorem c3_orphan_never_escapes_witness :
    storeGet [("k:lock", ⟨.vraw "True", 100⟩)] ("k" ++ ":lock") 0 =
      some (.vraw "True") ∧
    acquire_lock defaultCfg "k" 0 [("k:lock", ⟨.vraw "True", 100⟩)] =
      .error .itemAlreadyExists ∧
    put_in_progress_record defaultCfg
        ⟨"k", .jstr "INPROGRESS", some 99999, "None", "", some (.jint 100)⟩
        0 [("k:lock", ⟨.vraw "True", 100⟩)] ≠
      .error .orphanRecord :=
  ⟨rfl,
   (c3_orphan_never_escapes defaultCfg
     ⟨"k", .jstr "INPROGRESS", some 99999, "None", "", some (.jint 100)⟩
     "k" (.vraw "x") 0 0 [("k:lock", ⟨.vraw "True", 100⟩)]).2.1
     (.vraw "True") rfl,
   (c3_orphan_never_escapes defaultCfg
     ⟨"k", .jstr "INPROGRESS", some 99999, "None", "", some (.jint 100)⟩
     "k" (.vraw "x") 0 0 [("k:lock", ⟨.vraw "True", 100⟩)]).1⟩
